import Mathlib

/-!
Shallow embedding of the capture-upload-feedback orchestrator of the SeeQ
frontend (src/frontend/app/index.tsx).  The React component state is the
record `AppState`; the serialized event handler (timer ticks, gesture
events, camera and network completions, toast timers) is the function
`step`, following the single logical thread of control: each delivered
event runs to its next suspension point atomically and state updates take
effect before the next event is handled.  The two await points of
`takePicture` split one capture attempt into the phases `Stage.capturing`
(awaiting `takePictureAsync`) and `Stage.awaitingResult` (awaiting
`processImage`); the in-flight attempts are kept in the list
`AppState.active`, so that the single-flight property is a genuine theorem
about traces rather than true by construction.
-/

namespace SeeQ

/-- Operating mode: `vlm` is the automatic description mode, `ocr` the
manual text-extraction mode (the `currentMode` state, index.tsx line 150). -/
inductive Mode
  | vlm
  | ocr
deriving DecidableEq

/-- Net horizontal displacement threshold of a swipe (index.tsx line 31). -/
def SWIPE_THRESHOLD : Int := 50

/-- Phase of an in-flight capture attempt, between the two await points of
`takePicture` (index.tsx lines 163 and 172).  `awaitingResult` records the
photo uri and the endpoint chosen at submission time. -/
inductive Stage
  | capturing
  | awaitingResult (uri : String) (endpoint : String)
deriving DecidableEq

/-- An in-flight capture attempt: the trigger source passed to
`takePicture` together with its current phase. -/
structure Request where
  source : Mode
  stage : Stage
deriving DecidableEq

/-- The component state of `App` (index.tsx lines 150-155) plus the
bookkeeping needed to observe the pipeline: the list of in-flight capture
attempts, whether a toast auto-dismiss timeout is pending, and the log of
utterances handed to `speakCaption` (most recent first). -/
structure AppState where
  currentMode : Mode
  capturedImageUri : Option String
  isToastVisible : Bool
  currentCaption : Option String
  isUploading : Bool
  active : List Request
  pendingDismiss : Bool
  spoken : List String
deriving DecidableEq

/-- Resolution of `ref.current.takePictureAsync` (index.tsx line 163):
either a photo whose uri may be missing or falsy, or a thrown error.  The
`photo none` case covers both an undefined photo and a photo without uri. -/
inductive CameraOutcome
  | photo (uri : Option String)
  | failure (msg : String)
deriving DecidableEq

/-- JSON decoding outcome of the response body (`response.json()`,
index.tsx line 136): a decode error that is thrown, or the decoded object
with its optional `caption` field (absent field modelled as `none`, falsy
string as the empty string). -/
inductive JsonOutcome
  | decodeError (msg : String)
  | decoded (caption : Option String)
deriving DecidableEq

/-- Resolution of the network part of `processImage` (index.tsx lines
126-136): `fetch` may reject; otherwise the response carries `ok`,
`status`, the body text read on the error path, and the JSON decoding
outcome of the body. -/
inductive NetResponse
  | fetchError (msg : String)
  | resp (ok : Bool) (status : Nat) (bodyText : String) (body : JsonOutcome)
deriving DecidableEq

/-- Message of the error thrown on a non-ok response (index.tsx line 133). -/
def httpErrorMessage (status : Nat) (bodyText : String) : String :=
  "HTTP error! Status: " ++ toString status ++ ". Response: " ++ bodyText

/-- Value returned by `processImage` (`none` is the JS undefined) together
with the utterance it hands to `speakCaption`, if any. -/
structure ProcResult where
  caption : Option String
  speech : Option String
deriving DecidableEq

/-- `processImage` (index.tsx lines 113-145) as a function of the network
response: every exception (fetch rejection, non-ok status, JSON decode
failure) is caught and turned into a returned string starting with
"Processing failed: "; on success the `caption` field is spoken when
truthy and returned as is, undefined when the field is absent. -/
def processImage (r : NetResponse) : ProcResult :=
  match r with
  | NetResponse.fetchError msg =>
      ⟨some ("Processing failed: " ++ msg), none⟩
  | NetResponse.resp ok status bodyText body =>
      if ok then
        match body with
        | JsonOutcome.decodeError msg => ⟨some ("Processing failed: " ++ msg), none⟩
        | JsonOutcome.decoded none => ⟨none, none⟩
        | JsonOutcome.decoded (some c) =>
            if c = "" then ⟨some c, none⟩ else ⟨some c, some c⟩
      else
        ⟨some ("Processing failed: " ++ httpErrorMessage status bodyText), none⟩

/-- Endpoint selection inside `takePicture` (index.tsx lines 170-171):
the default endpoint `/vlm` is replaced by `/ocr` when the trigger source
of the request is `ocr`. -/
def endpointFor (s : Mode) : String :=
  if s = Mode.ocr then "/ocr" else "/vlm"

/-- Synchronous prefix of `takePicture` (index.tsx lines 157-162): the
single-flight check on `isUploading`, then the busy flag is set, the
caption cleared and the camera awaited.  The camera ref is assumed
mounted. -/
def takePictureStart (s : Mode) (st : AppState) : AppState :=
  if st.isUploading then st
  else
    { st with isUploading := true, currentCaption := none,
              active := ⟨s, Stage.capturing⟩ :: st.active }

/-- One event delivered to the serialized handler: an auto-capture timer
tick (index.tsx line 186), a recognized double tap (line 243), a pan
gesture END with its net horizontal displacement (line 194), the
resolution of the camera await, the resolution of the network await, the
completion of the toast entry animation (line 62), and the firing of the
scheduled dismiss timeout (line 64). -/
inductive Event
  | timerTick
  | doubleTap
  | swipeEnd (translationX : Int)
  | cameraResult (r : CameraOutcome)
  | networkResult (r : NetResponse)
  | toastShown
  | dismissFire
deriving DecidableEq

/-- The serialized event handler.  A timer tick runs `takePicture` with
source `vlm` unless busy (index.tsx line 187); a double tap runs it with
source `ocr` only in ocr mode and when not busy (line 244); a pan END is
ignored while busy (line 195) and otherwise changes mode when the
displacement passes the threshold in the valid direction, announcing the
new mode (lines 196-215); a camera resolution continues `takePicture`
past its first await (lines 163-180); a network resolution continues it
past `processImage` (lines 172-175); the toast entry animation completion
schedules the auto-dismiss timeout when not uploading (lines 62-71); the
timeout, never cancelled, unconditionally hides the toast and clears the
caption via `onClose` (lines 64-70 and 290-293). -/
def step (st : AppState) (e : Event) : AppState :=
  match e with
  | Event.timerTick =>
      if st.isUploading then st else takePictureStart Mode.vlm st
  | Event.doubleTap =>
      if st.currentMode = Mode.ocr ∧ st.isUploading = false then
        takePictureStart Mode.ocr st
      else st
  | Event.swipeEnd tx =>
      if st.isUploading then st
      else if tx > SWIPE_THRESHOLD ∧ st.currentMode = Mode.ocr then
        { st with currentMode := Mode.vlm, spoken := "Description" :: st.spoken }
      else if tx < -SWIPE_THRESHOLD ∧ st.currentMode = Mode.vlm then
        { st with currentMode := Mode.ocr, spoken := "text" :: st.spoken }
      else st
  | Event.cameraResult r =>
      match st.active with
      | ⟨s, Stage.capturing⟩ :: rest =>
          (match r with
           | CameraOutcome.failure msg =>
               { st with currentCaption := some ("Error: " ++ msg),
                         isUploading := false, active := rest }
           | CameraOutcome.photo none =>
               { st with isUploading := false, active := rest }
           | CameraOutcome.photo (some uri) =>
               if uri = "" then
                 { st with isUploading := false, active := rest }
               else
                 { st with capturedImageUri := some uri, isToastVisible := true,
                           active := ⟨s, Stage.awaitingResult uri (endpointFor s)⟩ :: rest })
      | _ => st
  | Event.networkResult r =>
      match st.active with
      | ⟨_, Stage.awaitingResult _ _⟩ :: rest =>
          let pr := processImage r
          { st with currentCaption := pr.caption, isUploading := false,
                    active := rest,
                    spoken := match pr.speech with
                              | some t => t :: st.spoken
                              | none => st.spoken }
      | _ => st
  | Event.toastShown =>
      if st.isToastVisible = true ∧ st.isUploading = false then
        { st with pendingDismiss := true }
      else st
  | Event.dismissFire =>
      if st.pendingDismiss then
        { st with pendingDismiss := false, isToastVisible := false,
                  currentCaption := none }
      else st

/-- Initial component state (index.tsx lines 150-155). -/
def initState : AppState :=
  { currentMode := Mode.vlm, capturedImageUri := none, isToastVisible := false,
    currentCaption := none, isUploading := false, active := [],
    pendingDismiss := false, spoken := [] }

/-- Run the handler on a sequence of events from the initial state. -/
def run (es : List Event) : AppState := es.foldl step initState

/-- Condition under which the auto-capture interval exists: the useEffect
at index.tsx lines 184-191 creates it exactly when the mode is `vlm` and
permission is granted; `isUploading` is only checked inside the tick
callback, not in the arming condition. -/
def intervalActive (permissionGranted : Bool) (st : AppState) : Bool :=
  if st.currentMode = Mode.vlm then permissionGranted else false

/-- The pipeline invariant: at most one capture attempt is in flight and
the busy flag is set exactly while one is. -/
def Inv (st : AppState) : Prop :=
  st.active.length ≤ 1 ∧ (st.isUploading = true ↔ st.active ≠ [])

theorem inv_takePictureStart {st : AppState} (h : Inv st) (s : Mode) :
    Inv (takePictureStart s st) := by
  obtain ⟨h1, h2⟩ := h
  unfold takePictureStart
  split
  · exact ⟨h1, h2⟩
  · rename_i hu
    have ha : st.active = [] := by
      by_contra hne
      exact hu (h2.mpr hne)
    simp [Inv, ha]

theorem inv_step {st : AppState} (h : Inv st) (e : Event) : Inv (step st e) := by
  obtain ⟨h1, h2⟩ := h
  cases e with
  | timerTick =>
      simp only [step]
      split
      · exact ⟨h1, h2⟩
      · exact inv_takePictureStart ⟨h1, h2⟩ _
  | doubleTap =>
      simp only [step]
      split
      · exact inv_takePictureStart ⟨h1, h2⟩ _
      · exact ⟨h1, h2⟩
  | swipeEnd tx =>
      simp only [step]
      split
      · exact ⟨h1, h2⟩
      · split
        · exact ⟨h1, h2⟩
        · split
          · exact ⟨h1, h2⟩
          · exact ⟨h1, h2⟩
  | cameraResult r =>
      rcases hA : st.active with _ | ⟨⟨s, stg⟩, rest⟩
      · have hs : step st (Event.cameraResult r) = st := by
          simp only [step, hA]
        rw [hs]
        exact ⟨h1, h2⟩
      · have hrest : rest = [] := by
          rw [hA] at h1
          simp only [List.length_cons] at h1
          exact List.eq_nil_of_length_eq_zero (by omega)
        have hup : st.isUploading = true := h2.mpr (by rw [hA]; simp)
        cases stg with
        | capturing =>
            cases r with
            | failure msg => simp [step, hA, Inv, hrest]
            | photo uri =>
                cases uri with
                | none => simp [step, hA, Inv, hrest]
                | some u =>
                    by_cases hu : u = ""
                    · simp [step, hA, Inv, hrest, hu]
                    · simp [step, hA, Inv, hrest, hu, hup]
        | awaitingResult uri ep =>
            have hs : step st (Event.cameraResult r) = st := by
              simp only [step, hA]
            rw [hs]
            exact ⟨h1, h2⟩
  | networkResult r =>
      rcases hA : st.active with _ | ⟨⟨s, stg⟩, rest⟩
      · have hs : step st (Event.networkResult r) = st := by
          simp only [step, hA]
        rw [hs]
        exact ⟨h1, h2⟩
      · have hrest : rest = [] := by
          rw [hA] at h1
          simp only [List.length_cons] at h1
          exact List.eq_nil_of_length_eq_zero (by omega)
        cases stg with
        | capturing =>
            have hs : step st (Event.networkResult r) = st := by
              simp only [step, hA]
            rw [hs]
            exact ⟨h1, h2⟩
        | awaitingResult uri ep => simp [step, hA, Inv, hrest]
  | toastShown =>
      simp only [step]
      split
      · exact ⟨h1, h2⟩
      · exact ⟨h1, h2⟩
  | dismissFire =>
      simp only [step]
      split
      · exact ⟨h1, h2⟩
      · exact ⟨h1, h2⟩

theorem inv_foldl (es : List Event) :
    ∀ st : AppState, Inv st → Inv (es.foldl step st) := by
  induction es with
  | nil => intro st h; exact h
  | cons e es ih =>
      intro st h
      exact ih _ (inv_step h e)

theorem inv_run (es : List Event) : Inv (run es) :=
  inv_foldl es initState (by constructor <;> simp [initState])

/-- A reachable busy state in ocr mode: one swipe to ocr, one double tap. -/
def stBusyOcr : AppState := run [Event.swipeEnd (-100), Event.doubleTap]

/-- A reachable idle state in ocr mode. -/
def stOcrIdle : AppState := run [Event.swipeEnd (-100)]

/-- A reachable state with one timer-triggered request awaiting the
network result. -/
def stAwaitVlm : AppState :=
  run [Event.timerTick, Event.cameraResult (CameraOutcome.photo (some "u1"))]

/-- C1: for every sequence of interleaved timer ticks, double-tap events,
swipes and completions delivered to the serialized handler, at most one
capture request is in its Capturing-to-AwaitingResult window at any
instant, and a request arriving while `isUploading` is set leaves the
in-flight window and the busy flag untouched: it never starts a capture
or an upload. -/
theorem c1_single_flight :
    (∀ es : List Event, (run es).active.length ≤ 1) ∧
    (∀ st : AppState, st.isUploading = true →
       (step st Event.timerTick).active = st.active ∧
       (step st Event.timerTick).isUploading = st.isUploading ∧
       (step st Event.doubleTap).active = st.active ∧
       (step st Event.doubleTap).isUploading = st.isUploading) := by
  constructor
  · intro es
    exact (inv_run es).1
  · intro st h
    simp [step, h]

/-- Witness for C1 at a concrete trace and a concrete busy state. -/
theorem c1_witness :
    (run [Event.timerTick, Event.doubleTap]).active.length ≤ 1 ∧
    (step stBusyOcr Event.timerTick).active = stBusyOcr.active :=
  ⟨c1_single_flight.1 [Event.timerTick, Event.doubleTap],
   (c1_single_flight.2 stBusyOcr (by decide)).1⟩

/-- C2 counterexample: in the reachable busy ocr state, a rightward swipe
whose displacement exceeds the threshold in the valid direction does not
change the mode; the whole state is left unchanged, so the busy flag does
block a mode switch (index.tsx line 195). -/
theorem c2_counterexample :
    stBusyOcr.isUploading = true ∧
    stBusyOcr.currentMode = Mode.ocr ∧
    (100 : Int) > SWIPE_THRESHOLD ∧
    (step stBusyOcr (Event.swipeEnd 100)).currentMode = Mode.ocr ∧
    step stBusyOcr (Event.swipeEnd 100) = stBusyOcr := by
  refine ⟨by decide, by decide, by decide, by decide, by decide⟩

/-- C2 amended: a swipe while busy is ignored entirely; a swipe whose net
displacement passes the threshold in a valid direction changes the mode
only when `isUploading` is false. -/
theorem c2_swipe_gating :
    (∀ st : AppState, ∀ tx : Int, st.isUploading = true →
        step st (Event.swipeEnd tx) = st) ∧
    (∀ st : AppState, ∀ tx : Int, st.isUploading = false →
        tx > SWIPE_THRESHOLD → st.currentMode = Mode.ocr →
        (step st (Event.swipeEnd tx)).currentMode = Mode.vlm) ∧
    (∀ st : AppState, ∀ tx : Int, st.isUploading = false →
        tx < -SWIPE_THRESHOLD → st.currentMode = Mode.vlm →
        (step st (Event.swipeEnd tx)).currentMode = Mode.ocr) := by
  refine ⟨?_, ?_, ?_⟩
  · intro st tx h
    simp [step, h]
  · intro st tx h ht hm
    simp [step, h, ht, hm]
  · intro st tx h ht hm
    simp [step, h, ht, hm]

/-- Witness for C2 amended at concrete states and displacements. -/
theorem c2_witness :
    step stBusyOcr (Event.swipeEnd 120) = stBusyOcr ∧
    (step stOcrIdle (Event.swipeEnd 120)).currentMode = Mode.vlm ∧
    (step initState (Event.swipeEnd (-120))).currentMode = Mode.ocr :=
  ⟨c2_swipe_gating.1 stBusyOcr 120 (by decide),
   c2_swipe_gating.2.1 stOcrIdle 120 (by decide) (by decide) (by decide),
   c2_swipe_gating.2.2 initState (-120) (by decide) (by decide) (by decide)⟩

/-- C7 counterexample: in the reachable state where a timer tick has
started an upload, the mode is still `vlm` and the auto-capture interval
exists even though the busy flag is set, contradicting armed iff
Automatic and not busy. -/
theorem c7_counterexample :
    intervalActive true (run [Event.timerTick]) = true ∧
    (run [Event.timerTick]).isUploading = true ∧
    (run [Event.timerTick]).currentMode = Mode.vlm := by
  refine ⟨by decide, by decide, by decide⟩

/-- C7 amended: the interval exists iff the mode is `vlm` and permission
is granted, irrespective of the busy flag; a tick that arrives while busy
is suppressed without any state change, so no capture starts while an
upload is in flight. -/
theorem c7_interval_condition (perm : Bool) (st : AppState) :
    (intervalActive perm st = true ↔ (st.currentMode = Mode.vlm ∧ perm = true)) ∧
    (st.isUploading = true → step st Event.timerTick = st) := by
  constructor
  · unfold intervalActive
    split
    · rename_i hm
      simp [hm]
    · rename_i hm
      simp [hm]
  · intro h
    simp [step, h]

/-- Witness for C7 amended at the reachable busy state. -/
theorem c7_witness :
    (intervalActive true (run [Event.timerTick]) = true ↔
      ((run [Event.timerTick]).currentMode = Mode.vlm ∧ true = true)) ∧
    step (run [Event.timerTick]) Event.timerTick = run [Event.timerTick] :=
  ⟨(c7_interval_condition true (run [Event.timerTick])).1,
   (c7_interval_condition true (run [Event.timerTick])).2 (by decide)⟩

/-- C9: a capture request rejected by the single-flight guard, a timer
tick or a recognized double tap arriving while `isUploading` is set,
produces no observable feedback at all: the full state, in particular
mode, toast visibility, captured image, caption, busy flag and speech
log, is left exactly as it was. -/
theorem c9_dropped_request_no_feedback (st : AppState)
    (h : st.isUploading = true) :
    step st Event.timerTick = st ∧ step st Event.doubleTap = st := by
  constructor <;> simp [step, h]

/-- Witness for C9 at the reachable busy ocr state. -/
theorem c9_witness :
    step stBusyOcr Event.timerTick = stBusyOcr ∧
    step stBusyOcr Event.doubleTap = stBusyOcr :=
  c9_dropped_request_no_feedback stBusyOcr (by decide)

/-- C10: `processImage` never throws; each internal exception, a fetch
rejection, a non-ok status with its body text, or a JSON decode failure,
is converted into a returned string beginning with "Processing failed: ",
so the caller always receives the returned value as the caption. -/
theorem c10_processImage_total :
    (∀ msg : String,
        (processImage (NetResponse.fetchError msg)).caption =
          some ("Processing failed: " ++ msg)) ∧
    (∀ (status : Nat) (bodyText : String) (body : JsonOutcome),
        (processImage (NetResponse.resp false status bodyText body)).caption =
          some ("Processing failed: " ++ httpErrorMessage status bodyText)) ∧
    (∀ (status : Nat) (bodyText msg : String),
        (processImage
            (NetResponse.resp true status bodyText (JsonOutcome.decodeError msg))).caption =
          some ("Processing failed: " ++ msg)) := by
  refine ⟨?_, ?_, ?_⟩
  · intro msg
    rfl
  · intro status bodyText body
    rfl
  · intro status bodyText msg
    rfl

/-- C3: the endpoint is determined solely by the trigger source fixed at
submission time, `/vlm` for a timer trigger and `/ocr` for a double-tap
trigger; a swipe never touches the in-flight request; and on completion
with a truthy caption the caption is applied and announced whatever the
current mode is at that moment, since the completion transition does not
read `currentMode` at all. -/
theorem c3_endpoint_and_completion :
    (endpointFor Mode.vlm = "/vlm" ∧ endpointFor Mode.ocr = "/ocr") ∧
    (∀ st : AppState, st.isUploading = false →
        (step st Event.timerTick).active =
          ⟨Mode.vlm, Stage.capturing⟩ :: st.active) ∧
    (∀ st : AppState, st.isUploading = false → st.currentMode = Mode.ocr →
        (step st Event.doubleTap).active =
          ⟨Mode.ocr, Stage.capturing⟩ :: st.active) ∧
    (∀ (st : AppState) (s : Mode) (rest : List Request) (uri : String),
        st.active = ⟨s, Stage.capturing⟩ :: rest → uri ≠ "" →
        (step st (Event.cameraResult (CameraOutcome.photo (some uri)))).active =
          ⟨s, Stage.awaitingResult uri (endpointFor s)⟩ :: rest) ∧
    (∀ (st : AppState) (tx : Int),
        (step st (Event.swipeEnd tx)).active = st.active) ∧
    (∀ (st : AppState) (s : Mode) (uri ep : String) (rest : List Request),
        st.active = ⟨s, Stage.awaitingResult uri ep⟩ :: rest →
        ∀ (c : String), c ≠ "" → ∀ (status : Nat) (bodyText : String),
        (step st (Event.networkResult
            (NetResponse.resp true status bodyText
              (JsonOutcome.decoded (some c))))).currentCaption = some c ∧
        (step st (Event.networkResult
            (NetResponse.resp true status bodyText
              (JsonOutcome.decoded (some c))))).spoken = c :: st.spoken) := by
  refine ⟨⟨rfl, rfl⟩, ?_, ?_, ?_, ?_, ?_⟩
  · intro st h
    simp [step, h, takePictureStart]
  · intro st h hm
    simp [step, h, hm, takePictureStart]
  · intro st s rest uri hA hu
    simp [step, hA, hu]
  · intro st tx
    simp only [step]
    split
    · rfl
    · split
      · rfl
      · split
        · rfl
        · rfl
  · intro st s uri ep rest hA c hc status bodyText
    constructor
    · simp [step, hA, processImage, hc]
    · simp [step, hA, processImage, hc]

/-- Witness for C3 at concrete states: a timer submission, a double-tap
submission, the endpoint fixed from the source on camera success, a swipe
that leaves the in-flight request alone, and a completion applied and
announced in a state whose mode differs from the trigger source. -/
theorem c3_witness :
    (step initState Event.timerTick).active =
      ⟨Mode.vlm, Stage.capturing⟩ :: initState.active ∧
    (step stOcrIdle Event.doubleTap).active =
      ⟨Mode.ocr, Stage.capturing⟩ :: stOcrIdle.active ∧
    (step stBusyOcr (Event.cameraResult (CameraOutcome.photo (some "u1")))).active =
      ⟨Mode.ocr, Stage.awaitingResult "u1" (endpointFor Mode.ocr)⟩ :: [] ∧
    (step stAwaitVlm (Event.swipeEnd (-100))).active = stAwaitVlm.active ∧
    (step (step stAwaitVlm (Event.swipeEnd (-100))) (Event.networkResult
        (NetResponse.resp true 200 ""
          (JsonOutcome.decoded (some "a chair"))))).currentCaption =
      some "a chair" ∧
    (step (step stAwaitVlm (Event.swipeEnd (-100))) (Event.networkResult
        (NetResponse.resp true 200 ""
          (JsonOutcome.decoded (some "a chair"))))).spoken =
      "a chair" :: (step stAwaitVlm (Event.swipeEnd (-100))).spoken :=
  ⟨c3_endpoint_and_completion.2.1 initState (by decide),
   c3_endpoint_and_completion.2.2.1 stOcrIdle (by decide) (by decide),
   c3_endpoint_and_completion.2.2.2.1 stBusyOcr Mode.ocr [] "u1"
     (by decide) (by decide),
   c3_endpoint_and_completion.2.2.2.2.1 stAwaitVlm (-100),
   (c3_endpoint_and_completion.2.2.2.2.2
     (step stAwaitVlm (Event.swipeEnd (-100))) Mode.vlm "u1" "/vlm" []
     (by decide) "a chair" (by decide) 200 "").1,
   (c3_endpoint_and_completion.2.2.2.2.2
     (step stAwaitVlm (Event.swipeEnd (-100))) Mode.vlm "u1" "/vlm" []
     (by decide) "a chair" (by decide) 200 "").2⟩

/-- C4 counterexample: a timer-triggered request whose upload gets an
HTTP 500 ends with the error text shown as the toast caption while the
speech log stays empty, so the error is never announced via speech
synthesis. -/
theorem c4_counterexample :
    (run [Event.timerTick,
          Event.cameraResult (CameraOutcome.photo (some "u1")),
          Event.networkResult (NetResponse.resp false 500 "Internal Server Error"
            (JsonOutcome.decoded none))]).currentCaption =
      some "Processing failed: HTTP error! Status: 500. Response: Internal Server Error" ∧
    (run [Event.timerTick,
          Event.cameraResult (CameraOutcome.photo (some "u1")),
          Event.networkResult (NetResponse.resp false 500 "Internal Server Error"
            (JsonOutcome.decoded none))]).isToastVisible = true ∧
    (run [Event.timerTick,
          Event.cameraResult (CameraOutcome.photo (some "u1")),
          Event.networkResult (NetResponse.resp false 500 "Internal Server Error"
            (JsonOutcome.decoded none))]).spoken = [] := by
  refine ⟨by decide, by decide, by decide⟩

/-- C4 amended: on every Failed terminal path the error text is written
to the toast caption but the speech log is left unchanged: `speakCaption`
is called only for a truthy caption on the success path, so errors are
shown, never spoken. -/
theorem c4_failure_feedback :
    (∀ (st : AppState) (s : Mode) (uri ep : String) (rest : List Request),
        st.active = ⟨s, Stage.awaitingResult uri ep⟩ :: rest →
        (∀ msg : String,
          (step st (Event.networkResult (NetResponse.fetchError msg))).currentCaption =
            some ("Processing failed: " ++ msg) ∧
          (step st (Event.networkResult (NetResponse.fetchError msg))).spoken =
            st.spoken) ∧
        (∀ (status : Nat) (bodyText : String) (body : JsonOutcome),
          (step st (Event.networkResult
              (NetResponse.resp false status bodyText body))).currentCaption =
            some ("Processing failed: " ++ httpErrorMessage status bodyText) ∧
          (step st (Event.networkResult
              (NetResponse.resp false status bodyText body))).spoken = st.spoken) ∧
        (∀ (status : Nat) (bodyText msg : String),
          (step st (Event.networkResult
              (NetResponse.resp true status bodyText
                (JsonOutcome.decodeError msg)))).currentCaption =
            some ("Processing failed: " ++ msg) ∧
          (step st (Event.networkResult
              (NetResponse.resp true status bodyText
                (JsonOutcome.decodeError msg)))).spoken = st.spoken)) ∧
    (∀ (st : AppState) (s : Mode) (rest : List Request),
        st.active = ⟨s, Stage.capturing⟩ :: rest →
        ∀ msg : String,
          (step st (Event.cameraResult (CameraOutcome.failure msg))).currentCaption =
            some ("Error: " ++ msg) ∧
          (step st (Event.cameraResult (CameraOutcome.failure msg))).spoken =
            st.spoken) := by
  constructor
  · intro st s uri ep rest hA
    refine ⟨?_, ?_, ?_⟩
    · intro msg
      constructor <;> simp [step, hA, processImage]
    · intro status bodyText body
      constructor <;> simp [step, hA, processImage]
    · intro status bodyText msg
      constructor <;> simp [step, hA, processImage]
  · intro st s rest hA msg
    constructor <;> simp [step, hA]

/-- Witness for C4 amended at concrete states and error inputs. -/
theorem c4_witness :
    (step stAwaitVlm (Event.networkResult
        (NetResponse.fetchError "Network request failed"))).currentCaption =
      some "Processing failed: Network request failed" ∧
    (step stAwaitVlm (Event.networkResult
        (NetResponse.fetchError "Network request failed"))).spoken =
      stAwaitVlm.spoken ∧
    (step stBusyOcr (Event.cameraResult
        (CameraOutcome.failure "Camera unmounted"))).currentCaption =
      some "Error: Camera unmounted" ∧
    (step stBusyOcr (Event.cameraResult
        (CameraOutcome.failure "Camera unmounted"))).spoken = stBusyOcr.spoken :=
  ⟨((c4_failure_feedback.1 stAwaitVlm Mode.vlm "u1" "/vlm" [] (by decide)).1
      "Network request failed").1,
   ((c4_failure_feedback.1 stAwaitVlm Mode.vlm "u1" "/vlm" [] (by decide)).1
      "Network request failed").2,
   (c4_failure_feedback.2 stBusyOcr Mode.ocr [] (by decide) "Camera unmounted").1,
   (c4_failure_feedback.2 stBusyOcr Mode.ocr [] (by decide) "Camera unmounted").2⟩

/-- C5 counterexample: a 2xx response whose JSON body lacks the caption
field makes `processImage` return the undefined caption with no speech;
the request does not end in a Failed state, as no error string of the
form "Processing failed: ..." is produced. -/
theorem c5_counterexample :
    (processImage (NetResponse.resp true 200 "body"
        (JsonOutcome.decoded none))).caption = none ∧
    (processImage (NetResponse.resp true 200 "body"
        (JsonOutcome.decoded none))).speech = none ∧
    ¬ ∃ s : String,
        (processImage (NetResponse.resp true 200 "body"
          (JsonOutcome.decoded none))).caption = some s ∧
        s.startsWith "Processing failed: " = true := by
  refine ⟨rfl, rfl, ?_⟩
  rintro ⟨s, hs, -⟩
  simp [processImage] at hs

/-- C5 amended: a 2xx response whose body is missing the caption field
ends the request silently rather than in Failed: the caption is set to
the undefined value, the busy flag is cleared, nothing is spoken, and no
error string is surfaced. -/
theorem c5_missing_field (st : AppState) (s : Mode) (uri ep : String)
    (rest : List Request)
    (hA : st.active = ⟨s, Stage.awaitingResult uri ep⟩ :: rest)
    (status : Nat) (bodyText : String) :
    (step st (Event.networkResult
        (NetResponse.resp true status bodyText
          (JsonOutcome.decoded none)))).currentCaption = none ∧
    (step st (Event.networkResult
        (NetResponse.resp true status bodyText
          (JsonOutcome.decoded none)))).isUploading = false ∧
    (step st (Event.networkResult
        (NetResponse.resp true status bodyText
          (JsonOutcome.decoded none)))).spoken = st.spoken ∧
    (step st (Event.networkResult
        (NetResponse.resp true status bodyText
          (JsonOutcome.decoded none)))).active = rest := by
  refine ⟨?_, ?_, ?_, ?_⟩ <;> simp [step, hA, processImage]

/-- Witness for C5 amended at the reachable awaiting state. -/
theorem c5_witness :
    (step stAwaitVlm (Event.networkResult
        (NetResponse.resp true 200 "ignored"
          (JsonOutcome.decoded none)))).currentCaption = none ∧
    (step stAwaitVlm (Event.networkResult
        (NetResponse.resp true 200 "ignored"
          (JsonOutcome.decoded none)))).isUploading = false ∧
    (step stAwaitVlm (Event.networkResult
        (NetResponse.resp true 200 "ignored"
          (JsonOutcome.decoded none)))).spoken = stAwaitVlm.spoken ∧
    (step stAwaitVlm (Event.networkResult
        (NetResponse.resp true 200 "ignored"
          (JsonOutcome.decoded none)))).active = [] :=
  c5_missing_field stAwaitVlm Mode.vlm "u1" "/vlm" [] (by decide) 200 "ignored"

/-- C6: every exit path of a capture attempt clears the busy flag and
removes the attempt from the in-flight window in the very step that ends
it, before any next event is handled: camera exception, missing photo,
falsy photo uri, and any network completion, success or failure alike.
The toast fields are not read by these transitions, so the clearing is
independent of how long the toast stays visible. -/
theorem c6_busy_cleared :
    (∀ (st : AppState) (s : Mode) (rest : List Request),
        st.active = ⟨s, Stage.capturing⟩ :: rest →
        (∀ msg : String,
          (step st (Event.cameraResult (CameraOutcome.failure msg))).isUploading =
            false ∧
          (step st (Event.cameraResult (CameraOutcome.failure msg))).active = rest) ∧
        ((step st (Event.cameraResult (CameraOutcome.photo none))).isUploading =
            false ∧
         (step st (Event.cameraResult (CameraOutcome.photo none))).active = rest) ∧
        ((step st (Event.cameraResult
            (CameraOutcome.photo (some "")))).isUploading = false ∧
         (step st (Event.cameraResult
            (CameraOutcome.photo (some "")))).active = rest)) ∧
    (∀ (st : AppState) (s : Mode) (uri ep : String) (rest : List Request),
        st.active = ⟨s, Stage.awaitingResult uri ep⟩ :: rest →
        ∀ r : NetResponse,
          (step st (Event.networkResult r)).isUploading = false ∧
          (step st (Event.networkResult r)).active = rest) := by
  constructor
  · intro st s rest hA
    refine ⟨?_, ?_, ?_⟩
    · intro msg
      constructor <;> simp [step, hA]
    · constructor <;> simp [step, hA]
    · constructor <;> simp [step, hA]
  · intro st s uri ep rest hA r
    constructor <;> simp [step, hA]

/-- Witness for C6 at concrete states: the camera exception path and the
successful network completion path both clear the busy flag. -/
theorem c6_witness :
    (step stBusyOcr (Event.cameraResult
        (CameraOutcome.failure "boom"))).isUploading = false ∧
    (step stBusyOcr (Event.cameraResult (CameraOutcome.failure "boom"))).active =
      [] ∧
    (step stAwaitVlm (Event.networkResult
        (NetResponse.resp true 200 ""
          (JsonOutcome.decoded (some "a chair"))))).isUploading = false ∧
    (step stAwaitVlm (Event.networkResult
        (NetResponse.resp true 200 ""
          (JsonOutcome.decoded (some "a chair"))))).active = [] :=
  ⟨((c6_busy_cleared.1 stBusyOcr Mode.ocr [] (by decide)).1 "boom").1,
   ((c6_busy_cleared.1 stBusyOcr Mode.ocr [] (by decide)).1 "boom").2,
   (c6_busy_cleared.2 stAwaitVlm Mode.vlm "u1" "/vlm" [] (by decide)
     (NetResponse.resp true 200 "" (JsonOutcome.decoded (some "a chair")))).1,
   (c6_busy_cleared.2 stAwaitVlm Mode.vlm "u1" "/vlm" [] (by decide)
     (NetResponse.resp true 200 "" (JsonOutcome.decoded (some "a chair")))).2⟩

/-- Events of the C8 failing run up to the point where the stale dismiss
timeout is still pending while a new capture lifecycle has begun: a first
capture completes, its auto-dismiss timeout is scheduled, then a new
timer tick starts a second capture and its photo arrives. -/
def c8Before : List Event :=
  [Event.timerTick,
   Event.cameraResult (CameraOutcome.photo (some "u1")),
   Event.networkResult (NetResponse.resp true 200 ""
     (JsonOutcome.decoded (some "a chair"))),
   Event.toastShown,
   Event.timerTick,
   Event.cameraResult (CameraOutcome.photo (some "u2"))]

/-- C8 failing run: the dismiss timeout scheduled for the first toast is
never cancelled (index.tsx lines 62-71 schedule it and nothing clears
it), so after the new capture lifecycle has begun and its toast is
showing, the stale timeout fires and hides the new toast and clears its
caption while the second request is still in flight. -/
theorem c8_stale_dismiss_fires :
    (run c8Before).pendingDismiss = true ∧
    (run c8Before).isToastVisible = true ∧
    (run c8Before).active ≠ [] ∧
    (run (c8Before ++ [Event.dismissFire])).isToastVisible = false ∧
    (run (c8Before ++ [Event.dismissFire])).currentCaption = none ∧
    (run (c8Before ++ [Event.dismissFire])).active ≠ [] := by
  refine ⟨by decide, by decide, by decide, by decide, by decide, by decide⟩

end SeeQ
